import Mathlib

/-!
Verification development for the SyncLedger pdf-microservice extraction and
mapping pipeline.

The Python sources under `pdf-microservice/` are shallowly embedded here:

* monetary amounts (`decimal.Decimal`) and Python floats are modelled as `ℚ`
  (the pipeline only ever produces finite decimal values);
* `datetime.date` objects are modelled by their proleptic-Gregorian ordinal
  (`date.toordinal()`) as an `ℤ`, so `date(1,1,1)` is `1` and
  `d.weekday() = (ordinal + 6) % 7` with Monday = 0;
* `None` becomes `Option.none`; Python truthiness is modelled explicitly;
* the regular-expression calls (`re.search` with `re.IGNORECASE | re.MULTILINE`)
  are modelled by a small backtracking matcher over an abstract syntax of the
  exact pattern subset the sources use (character classes, greedy and lazy
  repetition, alternation, one capture group, line anchors, the negative
  look-behind `(?<!\w)`).  Case-insensitivity is modelled by matching on the
  lower-cased text against lower-cased patterns, so captured slices are
  reported lower-cased; every theorem stated about captures is insensitive to
  this (captures used in theorems consist of digits and punctuation).
-/

namespace SyncLedger

/-! ## Python basics: whitespace, strip, truthiness, numeric parsing -/

/-- ASCII whitespace as matched by Python's `\s` and stripped by `str.strip()`
(the sources only ever feed ASCII text through these paths). -/
def isPySpace (c : Char) : Bool :=
  c == ' ' || c == '\t' || c == '\n' || c == '\r' || c == '\x0b' || c == '\x0c'

/-- Python `str.strip()`. -/
def pyStrip (s : String) : String :=
  let l := (s.toList.dropWhile isPySpace).reverse.dropWhile isPySpace
  String.mk l.reverse

/-- Python `str.lstrip('-')`. -/
def pyLstripDash (s : String) : String :=
  String.mk (s.toList.dropWhile (fun c => c == '-'))

/-- ASCII lower-casing of one character (Python `str.lower()` on the ASCII
texts these paths process). -/
def lowerChar (c : Char) : Char :=
  if 'A' ≤ c && c ≤ 'Z' then Char.ofNat (c.toNat + 32) else c

/-- Python `str.lower()` (ASCII). -/
def pyLower (s : String) : String :=
  String.mk (s.toList.map lowerChar)

/-- Numeric value of a digit string (assumes digits). -/
def digitsToNat (l : List Char) : Nat :=
  l.foldl (fun a c => 10 * a + (c.toNat - 48)) 0

/-- Model of `decimal.Decimal(s)` (and of `float(s)` on the same inputs) for
the sign/digits/point strings this pipeline produces; other constructor inputs
(exponent forms, `"Infinity"`, ...) never arise from the modelled sources.
Returns `none` where the Python constructor raises. -/
def parseDec (s : String) : Option ℚ :=
  let core : List Char → Option ℚ := fun cs =>
    if cs.all (fun c => c.isDigit || c == '.')
        && (cs.filter (fun c => c == '.')).length ≤ 1
        && cs.any Char.isDigit then
      let ip := cs.takeWhile (fun c => c ≠ '.')
      let fp := (cs.dropWhile (fun c => c ≠ '.')).drop 1
      some (mkRat (Int.ofNat (digitsToNat ip * 10 ^ fp.length + digitsToNat fp))
        (10 ^ fp.length))
    else
      none
  match s.toList with
  | '-' :: rest => (core rest).map (fun q => -q)
  | cs => core cs

/-- Model of Python `repr(float)` / `str(float)` for rationals that are exact
short decimals (the only values the modelled code paths stringify): integral
values render as `"123.0"`, other decimal values with their shortest
fractional part.  Non-decimal rationals never reach this function. -/
def decToStr (q : ℚ) : String :=
  let sign := if q < 0 then "-" else ""
  let a : ℚ := |q|
  if a.den == 1 then
    sign ++ toString a.num ++ ".0"
  else
    match (List.range 31).find? (fun k => (a * (10 : ℚ) ^ k).den == 1 && k ≠ 0) with
    | some k =>
        let digits := toString (a * (10 : ℚ) ^ k).num
        let padded :=
          if digits.length ≤ k then
            String.mk (List.replicate (k + 1 - digits.length) '0') ++ digits
          else digits
        let cut := padded.length - k
        sign ++ String.mk (padded.toList.take cut) ++ "." ++
          String.mk (padded.toList.drop cut)
    | none => sign ++ toString a.num ++ "/" ++ toString a.den

/-- Round to `n` decimal places.  Python's `round` on floats rounds half to
even on the binary value; the scores rounded in this code are sums of small
decimal weights, modelled exactly in `ℚ` and rounded with Mathlib's
nearest-integer `round`.  Every theorem below is robust to the tie-breaking
rule (no statement depends on the value at an exact half-way point). -/
def pyRound (q : ℚ) (n : Nat) : ℚ :=
  (round (q * (10 : ℚ) ^ n) : ℤ) / (10 : ℚ) ^ n

theorem pyRound_mono {a b : ℚ} (n : Nat) (h : a ≤ b) : pyRound a n ≤ pyRound b n := by
  unfold pyRound
  have hp : (0 : ℚ) < (10 : ℚ) ^ n := by positivity
  have hr : (round (a * (10 : ℚ) ^ n) : ℤ) ≤ round (b * (10 : ℚ) ^ n) := by
    rw [round_eq, round_eq]
    exact Int.floor_mono (by nlinarith)
  have : ((round (a * (10 : ℚ) ^ n) : ℤ) : ℚ) ≤ ((round (b * (10 : ℚ) ^ n) : ℤ) : ℚ) := by
    exact_mod_cast hr
  exact div_le_div_of_nonneg_right this hp.le

/-! ## Dates as proleptic-Gregorian ordinals -/

/-- Python `calendar.isleap`. -/
def isLeapYear (y : ℤ) : Bool :=
  Int.emod y 4 == 0 && (Int.emod y 100 ≠ 0 || Int.emod y 400 == 0)

/-- Day count of month `m` (1-12) in year `y`; Python `calendar.monthrange(y, m)[1]`. -/
def lastDayOfMonth (y m : ℤ) : ℤ :=
  if m == 2 then (if isLeapYear y then 29 else 28)
  else if m == 4 || m == 6 || m == 9 || m == 11 then 30
  else 31

/-- Days in year `y` before month `m` (1-12), ignoring leap days. -/
def daysBeforeMonth365 (m : ℤ) : ℤ :=
  if m ≤ 1 then 0 else if m == 2 then 31 else if m == 3 then 59
  else if m == 4 then 90 else if m == 5 then 120 else if m == 6 then 151
  else if m == 7 then 181 else if m == 8 then 212 else if m == 9 then 243
  else if m == 10 then 273 else if m == 11 then 304 else 334

/-- `date(y, m, d).toordinal()` for a valid proleptic-Gregorian date with
`y ≥ 1`; `date(1, 1, 1).toordinal() = 1`. -/
def dateOrd (y m d : ℤ) : ℤ :=
  365 * (y - 1) + Int.ediv (y - 1) 4 - Int.ediv (y - 1) 100 + Int.ediv (y - 1) 400
    + daysBeforeMonth365 m
    + (if 2 < m && isLeapYear y then 1 else 0)
    + d

/-- `date.fromordinal(o)` as a `(year, month, day)` triple (civil-from-days
algorithm, Euclidean division). -/
def civilFromOrd (o : ℤ) : ℤ × ℤ × ℤ :=
  let z := o - 719163 + 719468
  let era := Int.ediv z 146097
  let doe := Int.emod z 146097
  let yoe := Int.ediv (doe - Int.ediv doe 1460 + Int.ediv doe 36524 - Int.ediv doe 146096) 365
  let y := yoe + era * 400
  let doy := doe - (365 * yoe + Int.ediv yoe 4 - Int.ediv yoe 100)
  let mp := Int.ediv (5 * doy + 2) 153
  let d := doy - Int.ediv (153 * mp + 2) 5 + 1
  let m := mp + (if mp < 10 then 3 else -9)
  (y + (if m ≤ 2 then 1 else 0), m, d)

/-- `d.weekday()` on ordinals: Monday = 0, ..., Sunday = 6. -/
def weekday (o : ℤ) : ℤ :=
  Int.emod (o + 6) 7

/-! ## A small regex engine (the Python `re` subset used by the sources)

Matching follows Python's leftmost, backtracking, greedy-by-default search
semantics.  `grp` marks the single capture group `(...)` each modelled
pattern contains.  `prevNotWord` is the negative look-behind `(?<!\w)`;
`bol`/`eol` are `^`/`$` under `re.MULTILINE`. -/

inductive RE where
  | eps
  | anyc
  | chr (c : Char)
  | cls (neg : Bool) (cs : List Char) (ranges : List (Char × Char))
  | seq (a b : RE)
  | alt (a b : RE)
  | star (a : RE)
  | lstar (a : RE)
  | opt (a : RE)
  | grp (a : RE)
  | bol
  | eol
  | prevNotWord
deriving Repr

namespace RE

/-- Membership in a character class. -/
def inClass (cs : List Char) (ranges : List (Char × Char)) (c : Char) : Bool :=
  cs.contains c || ranges.any (fun r => r.1 ≤ c && c ≤ r.2)

/-- Python `\w` (ASCII view, sufficient for the modelled inputs). -/
def isWordChar (c : Char) : Bool :=
  c.isAlphanum || c == '_'

/-- Capture state: span of group 1, if it has matched. -/
abbrev Cap := Option (Nat × Nat)

/-- Backtracking matcher in continuation-passing style.  `fuel` bounds the
recursion depth only; `searchRE` supplies enough fuel that every search on the
modelled patterns/texts runs to completion.  Alternatives are tried in
Python's order: left alternative first, greedy repetition longest-first,
lazy repetition shortest-first.  Repetition requires progress (the sources
contain no nullable repetition bodies). -/
def matchRE (t : List Char) : Nat → RE → Nat → Cap → (Nat → Cap → Option Cap) → Option Cap
  | 0, _, _, _, _ => none
  | Nat.succ f, re, i, cap, k =>
    match re with
    | eps => k i cap
    | anyc =>
        match t.get? i with
        | some c => if c ≠ '\n' then matchRE t f eps (i + 1) cap k else none
        | none => none
    | chr c =>
        match t.get? i with
        | some c2 => if c == c2 then matchRE t f eps (i + 1) cap k else none
        | none => none
    | cls neg cs ranges =>
        match t.get? i with
        | some c =>
            if (inClass cs ranges c) != neg then matchRE t f eps (i + 1) cap k else none
        | none => none
    | seq a b => matchRE t f a i cap (fun j c2 => matchRE t f b j c2 k)
    | alt a b =>
        match matchRE t f a i cap k with
        | some r => some r
        | none => matchRE t f b i cap k
    | star a =>
        match matchRE t f a i cap
            (fun j c2 => if i < j then matchRE t f (star a) j c2 k else none) with
        | some r => some r
        | none => k i cap
    | lstar a =>
        match k i cap with
        | some r => some r
        | none =>
            matchRE t f a i cap
              (fun j c2 => if i < j then matchRE t f (lstar a) j c2 k else none)
    | opt a =>
        match matchRE t f a i cap k with
        | some r => some r
        | none => k i cap
    | grp a => matchRE t f a i cap (fun j c2 => k j (if c2.isSome then c2 else some (i, j)))
    | bol =>
        if i == 0 || t.get? (i - 1) == some '\n' then k i cap else none
    | eol =>
        if i == t.length || t.get? i == some '\n' then k i cap else none
    | prevNotWord =>
        if i == 0 then k i cap
        else
          match t.get? (i - 1) with
          | some c => if isWordChar c then none else k i cap
          | none => k i cap

/-- Structural size, used to budget matcher fuel. -/
def size : RE → Nat
  | eps | anyc | chr _ | cls _ _ _ | bol | eol | prevNotWord => 1
  | seq a b | alt a b => size a + size b + 1
  | star a | lstar a | opt a | grp a => size a + 1

/-- Try to match `re` anchored at position `i`; on success return group 1's
span (every modelled pattern captures exactly one group on success). -/
def matchAt (re : RE) (t : List Char) (i : Nat) : Option (Nat × Nat) :=
  match matchRE t ((t.length + 2) * (size re + 2) * 4 + 64) re i none
      (fun _ cap => some cap) with
  | some (some span) => some span
  | _ => none

/-- Leftmost search, Python `re.search`: try each start position in order. -/
def searchSpans (re : RE) (t : List Char) : Option (Nat × Nat) :=
  (List.range (t.length + 1)).findSome? (fun i => matchAt re t i)

/-- `re.search(pattern, text, re.IGNORECASE | re.MULTILINE)` returning
`match.group(1)`: matching happens on the lower-cased text (see the header
note on case). -/
def searchGroup (re : RE) (s : String) : Option String :=
  let t := (pyLower s).toList
  (searchSpans re t).map (fun span => String.mk ((t.take span.2).drop span.1))

end RE

/-! ### Pattern-building helpers (patterns are written lower-cased) -/

/-- Literal string. -/
def rlit (s : String) : RE :=
  s.toList.foldr (fun c acc => RE.seq (RE.chr c) acc) RE.eps

/-- Concatenation of a list of patterns. -/
def rcat (l : List RE) : RE :=
  l.foldr RE.seq RE.eps

/-- Alternation of a non-empty list (left-to-right priority, Python order). -/
def ralt (l : List RE) : RE :=
  match l with
  | [] => RE.eps
  | [a] => a
  | a :: rest => RE.alt a (ralt rest)

/-- One-or-more, greedy (`+`). -/
def rplus (a : RE) : RE := RE.seq a (RE.star a)

/-- Exactly `n` copies followed by greedy star: `{n,}`. -/
def ratLeast (n : Nat) (a : RE) : RE :=
  rcat (List.replicate n a) |>.seq (RE.star a)

/-- Lazy one-or-more (`+?`). -/
def rplusLazy (a : RE) : RE := RE.seq a (RE.lstar a)

/-- Python `\s` as a class (ASCII). -/
def rws : RE := RE.cls false [' ', '\t', '\n', '\r', '\x0b', '\x0c'] []

/-- `\s*`. -/
def rwsS : RE := RE.star rws

/-- `\s+`. -/
def rwsP : RE := rplus rws

/-- `\d`. -/
def rdigit : RE := RE.cls false [] [('0', '9')]

/-- `[\d,]`. -/
def rdigitComma : RE := RE.cls false [','] [('0', '9')]

/-- `([\d,]+\.?\d*)` — the capture group every amount pattern uses. -/
def ramountGroup : RE :=
  RE.grp (rcat [rplus rdigitComma, RE.opt (RE.chr '.'), RE.star rdigit])

/-- `[a-z0-9]` (source `[A-Z0-9]` under `re.IGNORECASE`). -/
def ralnum : RE := RE.cls false [] [('a', 'z'), ('0', '9')]

/-- `[a-z0-9\-]`. -/
def ralnumDash : RE := RE.cls false ['-'] [('a', 'z'), ('0', '9')]

/-- `([a-z0-9][a-z0-9\-]+)` — the standard invoice-number capture group. -/
def ridGroup : RE := RE.grp (RE.seq ralnum (rplus ralnumDash))

/-- `([a-z0-9][a-z0-9\-]{n,})`. -/
def ridGroupMin (n : Nat) : RE := RE.grp (RE.seq ralnum (ratLeast n ralnumDash))

/-! ## FieldParser.PATTERNS (transcribed from `services/field_parser.py`)

Each Python raw-string pattern is transcribed into the `RE` syntax in the
same list order (first match wins).  Patterns are written lower-cased because
every `FieldParser` search passes `re.IGNORECASE` (see `searchGroup`). -/

/-- Tail common to most amount patterns: `\s*:?\s*\$?\s*` + capture group. -/
def ramountTail : RE :=
  rcat [rwsS, RE.opt (RE.chr ':'), rwsS, RE.opt (RE.chr '$'), rwsS, ramountGroup]

/-- `PATTERNS['total']` — the 26 total-amount patterns, in source order. -/
def totalPatterns : List RE :=
  [ rcat [RE.alt (rlit "grand") (rlit "order"), rwsP, rlit "total", ramountTail],
    rcat [rlit "total", rwsP, rlit "amount", rwsP, rlit "due", ramountTail],
    rcat [rlit "total", rwsP, rlit "amount", rwsP, rlit "due", rwsS,
          RE.opt (RE.chr '$'), rwsS, ramountGroup],
    rcat [rlit "total", rwsP, rlit "due", ramountTail],
    rcat [rlit "total", rwsP, rlit "due", rwsS, RE.chr '$', rwsS, ramountGroup],
    rcat [rlit "amount", rwsP, rlit "due", ramountTail],
    rcat [rlit "balance", rwsP, rlit "due", ramountTail],
    rcat [rlit "balance", ramountTail],
    rcat [rlit "balance", rwsS, RE.opt (RE.chr '$'), rwsS, ramountGroup],
    rcat [rlit "total", rwsP, rlit "net", ramountTail],
    rcat [rlit "total", rwsP, rlit "net", ramountTail],
    rcat [rlit "net", rwsP, rlit "invoice", rwsS, RE.opt (rlit "amount"), ramountTail],
    rcat [rlit "pay", rwsP, rlit "this", rwsP, rlit "amount", ramountTail],
    rcat [rlit "total", rwsP, rlit "invoice", rwsP, rlit "amt", ramountTail],
    rcat [rlit "invoice", rwsP, rlit "total", ramountTail],
    rcat [rlit "original", rwsP, rlit "invoice", rwsP, rlit "total", rwsP,
          rlit "due", ramountTail],
    rcat [RE.alt RE.bol (RE.chr '\n'), rwsS, rlit "total", ramountTail],
    rcat [rlit "total", rwsP, rlit "amount", rwsS, RE.opt (RE.chr ':'), rwsS,
          rplus (RE.cls false ['\n', '\r'] []), rwsS, RE.opt (RE.chr '$'), rwsS,
          ramountGroup],
    rcat [rlit "total", rwsP, rlit "price", rwsS, RE.opt (RE.chr ':'), rwsS,
          RE.chr '$', rwsS, ramountGroup],
    rcat [rlit "extended", rwsP, rlit "net", rwsS, RE.opt (RE.chr ':'), rwsS,
          RE.opt (RE.chr '('), RE.opt (RE.chr '$'), rwsS, ramountGroup,
          RE.opt (RE.chr ')')],
    rcat [rlit "total", rwsS, RE.opt (RE.chr ':'), rwsS, RE.chr '$', rwsP,
          ramountGroup],
    rcat [rlit "amount", rwsP, rlit "due", rwsS, RE.opt (RE.chr ':'), rwsS,
          RE.chr '$', rwsP, ramountGroup],
    rcat [rlit "sub", rwsP, rlit "total", rwsP,
          RE.grp (rcat [rplus rdigitComma, RE.chr '.', rdigit, rdigit]),
          rwsS, RE.eol],
    rcat [rlit "total", rwsS, RE.chr ':', rwsS, RE.opt (RE.chr '$'), rwsS,
          ramountGroup],
    rcat [rlit "balance", rwsP, RE.opt (RE.chr '-'), RE.opt (RE.chr '$'), rwsS,
          ramountGroup],
    rcat [rlit "subtotal", rwsS, RE.chr ':', rwsS, RE.opt (RE.chr '$'), rwsS,
          ramountGroup] ]

/-- `PATTERNS['phone']` — the two phone patterns, in source order. -/
def phonePatterns : List RE :=
  [ rcat [ralt [rlit "phone", rlit "tel", rlit "fax"], rwsS, RE.opt (RE.chr ':'),
          rwsS,
          RE.grp (rplus (RE.cls false
            ['-', '(', ')', '+', ' ', '\t', '\n', '\r', '\x0b', '\x0c']
            [('0', '9')]))],
    RE.grp (rcat [RE.opt (RE.chr '+'), RE.opt (RE.chr '1'), rwsS,
          RE.opt (RE.cls false ['(', '-'] []),
          rdigit, rdigit, rdigit,
          RE.opt (RE.cls false [')', '-', ' ', '\t', '\n', '\r', '\x0b', '\x0c'] []),
          rdigit, rdigit, rdigit,
          RE.opt (RE.cls false ['-', ' ', '\t', '\n', '\r', '\x0b', '\x0c'] []),
          rdigit, rdigit, rdigit, rdigit]) ]

/-- `PATTERNS['invoice_number']` — the 12 invoice-number patterns, in source
order. -/
def invoicePatterns : List RE :=
  [ rcat [rlit "invoice", rwsP, rlit "number", rwsS, RE.opt (RE.chr ':'), rwsS,
          ridGroup],
    rcat [rlit "invoice", rwsP, rlit "no", RE.opt (RE.chr '.'), rwsS,
          RE.opt (RE.chr ':'), rwsS, ridGroup],
    rcat [rlit "invoice", rwsS, RE.chr '#',
          RE.opt (rcat [rlit "page", rwsS, RE.chr '#']), rwsS,
          rplus (RE.cls false ['\n', '\r'] []), rwsS, ridGroup],
    rcat [rlit "invoice", rwsS, RE.chr '#', rwsS, RE.opt (RE.chr ':'), rwsS,
          ridGroup],
    rcat [RE.prevNotWord, rlit "invoice", rwsP, ridGroupMin 3],
    rcat [rlit "inv", rwsS, RE.chr '#', rwsS, RE.opt (RE.chr ':'), rwsS, ridGroup],
    rcat [rlit "invoice", rwsP, rlit "number", rwsP, rplusLazy RE.anyc,
          rplus (RE.cls false ['\n', '\r'] []), rwsS, ridGroup],
    rcat [rlit "order", rwsS, RE.chr '#', rwsS, RE.opt (RE.chr ':'), rwsS, ridGroup],
    rcat [rlit "invoice", rwsS, RE.chr ':', rwsS, ridGroup],
    rcat [rlit "invoice", rwsP, rlit "no", RE.opt (RE.chr '.'), rwsS,
          rlit "invoice", rwsP, rlit "date", RE.lstar RE.anyc,
          rplus (RE.cls false ['\n', '\r'] []), rwsS, ridGroup],
    rcat [ralt [rlit "llc", rlit "inc", rlit "corp", rlit "co"], rwsP,
          ridGroupMin 4, rwsP, ralt [rlit "required", rlit "ship", rlit "order"]],
    rcat [rlit "order", rwsP, rlit "number", rplus (RE.cls false ['\n', '\r'] []),
          RE.lstar RE.anyc, ridGroupMin 4] ]

/-- The generic fallback pattern list in `_extract_invoice_number`:
`#\s*:?\s*([A-Z0-9][A-Z0-9\-]{4,})`. -/
def invoiceFallbackPatterns : List RE :=
  [ rcat [RE.chr '#', rwsS, RE.opt (RE.chr ':'), rwsS, ridGroupMin 4] ]

end SyncLedger



namespace SyncLedger

/-! ## Python truthiness on optional values -/

/-- Truthiness of an optional string (`None` and `""` are falsy). -/
def truthyStr : Option String → Bool
  | none => false
  | some s => s ≠ ""

/-- Truthiness of an optional `Decimal`/number (`None` and `0` are falsy). -/
def truthyDec : Option ℚ → Bool
  | none => false
  | some q => q ≠ 0

/-- Python `a or b` on optional strings. -/
def pyOrStr (a b : Option String) : Option String :=
  if truthyStr a then a else b

/-- Python `a or b` on optional dates (`date` objects are always truthy). -/
def pyOrDate (a b : Option ℤ) : Option ℤ :=
  if a.isSome then a else b

/-! ## Data model (`models/invoice_data.py`)

`LineItem` is transcribed field-for-field.  Note that the pydantic model
declares no `gl_account_code` field — only the SQLAlchemy ORM model
`db_models.InvoiceLineItem` has that column — which is what makes the
GL-backfill loop in `MappingEngine.apply_mapping` raise (see `glBackfill`
below). -/

structure LineItem where
  line_number : ℤ
  description : Option String := none
  item_code : Option String := none
  quantity : Option ℚ := none
  unit : Option String := none
  unit_price : Option ℚ := none
  tax_rate : Option ℚ := none
  tax_amount : Option ℚ := none
  discount_amount : Option ℚ := none
  line_total : Option ℚ := none
deriving Repr, DecidableEq

/-- `models/invoice_data.VendorInfo`. -/
structure VendorInfo where
  name : Option String := none
  address : Option String := none
  email : Option String := none
  phone : Option String := none
  tax_id : Option String := none
  website : Option String := none
deriving Repr, DecidableEq

/-- `models/invoice_data.InvoiceData`.  Constructor keyword arguments the
sources pass for fields this pydantic model does not declare (`gl_account`,
`project`, `item_category`, `location`) are silently dropped by pydantic
(default `Extra.ignore`), so they do not appear here. -/
structure InvoiceData where
  invoice_number : Option String := none
  po_number : Option String := none
  vendor : VendorInfo := {}
  invoice_date : Option ℤ := none
  due_date : Option ℤ := none
  subtotal : Option ℚ := none
  tax_amount : Option ℚ := none
  discount_amount : Option ℚ := none
  shipping_amount : Option ℚ := none
  total_amount : Option ℚ := none
  currency : String := "USD"
  line_items : List LineItem := []
  payment_terms : Option String := none
  bank_details : Option String := none
  confidence_score : ℚ := 0
  requires_manual_review : Bool := false
  raw_text : Option String := none
deriving Repr, DecidableEq

/-! ## FieldParser (`services/field_parser.py`) -/

namespace FieldParser

/-- `FieldParser._extract_pattern`: first pattern with a search hit wins;
the capture is `.strip()`-ped. -/
def extract_pattern (patterns : List RE) (text : String) : Option String :=
  (patterns.findSome? (fun p => RE.searchGroup p text)).map pyStrip

/-- `FieldParser._extract_amount`: run `extract_pattern`, then clean the
matched string (drop `,`, `$`, `(`, `)`, strip, strip any leading `-`) and
parse it as `Decimal`; parse failures and empty cleanups yield `None`. -/
def extract_amount (patterns : List RE) (text : String) : Option ℚ :=
  match extract_pattern patterns text with
  | none => none
  | some s =>
      if s == "" then none
      else
        let cleaned := pyStrip (String.mk
          (s.toList.filter (fun c => c ≠ ',' && c ≠ '$' && c ≠ '(' && c ≠ ')')))
        let cleaned := pyStrip (pyLstripDash cleaned)
        if cleaned ≠ "" then parseDec cleaned else none

/-- The false-positive stop list in `_extract_invoice_number`. -/
def invoiceStopwords : List String :=
  ["invoice", "page", "order", "date", "number", "account", "bill", "custom",
   "shipping", "no", "si", "abc", "cut", "aqua"]

/-- Does the string contain a digit (`re.search(r'\d', value)`)? -/
def containsDigit (s : String) : Bool :=
  s.toList.any Char.isDigit

/-- The validation applied to candidate invoice numbers: at least one digit,
length at least 2, not a known false-positive word. -/
def validInvoiceValue (v : String) : Bool :=
  containsDigit v && decide (2 ≤ v.length) && !(invoiceStopwords.contains (pyLower v))

/-- One pass of the `for pattern in patterns` loop of
`_extract_invoice_number`: the first pattern whose (stripped) capture passes
validation wins; a capture that fails validation falls through to the next
pattern. -/
def firstValidatedMatch (patterns : List RE) (valid : String → Bool)
    (text : String) : Option String :=
  patterns.findSome? (fun p =>
    match RE.searchGroup p text with
    | some g => if valid (pyStrip g) then some (pyStrip g) else none
    | none => none)

/-- `FieldParser._extract_invoice_number`: the twelve priority patterns with
full validation, then the generic `#`-fallback patterns with only the
contains-a-digit check. -/
def extract_invoice_number (text : String) : Option String :=
  match firstValidatedMatch invoicePatterns validInvoiceValue text with
  | some v => some v
  | none => firstValidatedMatch invoiceFallbackPatterns containsDigit text

/-- The `vendor_phone` entry of the dictionary built by
`FieldParser.parse_raw_fields`: `_extract_vendor_info` fills it from
`_extract_pattern(text, PATTERNS['phone'])` verbatim. -/
def vendor_phone_field (text : String) : Option String :=
  extract_pattern phonePatterns text

/-- Sum of the truthy line totals:
`sum(item.line_total for item in line_items if item.line_total)`. -/
def sumTruthyLineTotals (items : List LineItem) : ℚ :=
  (items.map (fun it => if truthyDec it.line_total then it.line_total.getD 0 else 0)).sum

/-- `FieldParser._calculate_confidence`, with the weights 0.25 / 0.15 / 0.25 /
0.15 / 0.20, the fraction of complete line items, the 0.05 totals-agreement
bonus, clamping at 1 and rounding to two decimals. -/
def calculate_confidence (invoice_number : Option String) (invoice_date : Option ℤ)
    (total : Option ℚ) (vendor_name : Option String)
    (line_items : List LineItem) : ℚ :=
  let score : ℚ :=
    (if truthyStr invoice_number then 25/100 else 0)
    + (if invoice_date.isSome then 15/100 else 0)
    + (if truthyDec total then 25/100 else 0)
    + (if truthyStr vendor_name then 15/100 else 0)
    + (if line_items ≠ [] then
        let complete := (line_items.filter
          (fun it => truthyDec it.line_total && truthyDec it.quantity)).length
        (20/100) * min ((complete : ℚ) / max (line_items.length : ℚ) 1) 1
      else 0)
  let score := score +
    (if truthyDec total && !line_items.isEmpty then
      let calcTotal := sumTruthyLineTotals line_items
      if calcTotal ≠ 0 && decide (|total.getD 0 - calcTotal| < 1/100) then 5/100 else 0
    else 0)
  pyRound (min score 1) 2

/-- The typed view of the dictionary returned by
`FieldParser.parse_raw_fields` — exactly the keys that `parse` and
`parse_with_line_items` read back (dates are already parsed `date`s, amounts
already `Decimal`s, everything else stripped match strings or `None`). -/
structure RawParsed where
  po_number : Option String := none
  invoice_number : Option String := none
  order_date : Option ℤ := none
  invoice_date : Option ℤ := none
  due_date : Option ℤ := none
  approved_date : Option ℤ := none
  total : Option ℚ := none
  subtotal : Option ℚ := none
  tax_amount : Option ℚ := none
  vendor_name : Option String := none
  vendor_address : Option String := none
  vendor_email : Option String := none
  vendor_phone : Option String := none
  project_number : Option String := none
  sale_number : Option String := none
  opportunity_number : Option String := none
  market_segment : Option String := none
  product_category : Option String := none
  created_by : Option String := none
  raw_text : String := ""
deriving Repr, DecidableEq

/-- `FieldParser.parse`, below the extraction layer: its two extraction calls
(`parse_raw_fields`, `_extract_line_items`) are abstracted as the arguments
`rf` and `line_items`; everything from line 216 of `field_parser.py` onwards
(PO-number fallback, date/subtotal/total fallbacks, confidence, the
manual-review flag and the construction of `InvoiceData`) is transcribed. -/
def parse (rf : RawParsed) (line_items : List LineItem) : InvoiceData :=
  let po := rf.po_number
  let inv0 := rf.invoice_number
  let inv := if !truthyStr inv0 && truthyStr po
    then po.map (fun p => "PO-" ++ p) else inv0
  let invoice_date := pyOrDate rf.order_date rf.invoice_date
  let total0 := rf.total
  let subtotal0 := rf.subtotal
  let tax := rf.tax_amount
  let subtotal := if !truthyDec subtotal0 && truthyDec total0 && !truthyDec tax
    then total0 else subtotal0
  let total := if !truthyDec total0 && !line_items.isEmpty
    then some (sumTruthyLineTotals line_items) else total0
  let confidence := calculate_confidence inv invoice_date total rf.vendor_name line_items
  let requires_review :=
    decide (confidence < 7/10) || inv.isNone || total.isNone
  { invoice_number := inv
    po_number := po
    vendor :=
      { name := rf.vendor_name
        address := rf.vendor_address
        email := rf.vendor_email
        phone := rf.vendor_phone }
    invoice_date := invoice_date
    due_date := rf.due_date
    subtotal := subtotal
    tax_amount := tax
    total_amount := total
    line_items := line_items
    confidence_score := confidence
    requires_manual_review := requires_review
    raw_text := some rf.raw_text }

/-- `FieldParser.parse_with_line_items`, below the extraction layer: returns
the updated raw-field view (the summed total is written back into the dict)
together with the `confidence_score` and `requires_manual_review` values the
method stores into the dict. -/
def parse_with_line_items (rf : RawParsed) (line_items : List LineItem) :
    RawParsed × ℚ × Bool :=
  let po := rf.po_number
  let inv0 := rf.invoice_number
  let inv := if !truthyStr inv0 && truthyStr po
    then po.map (fun p => "PO-" ++ p) else inv0
  let total0 := rf.total
  let total := if !truthyDec total0 && !line_items.isEmpty
    then some (sumTruthyLineTotals line_items) else total0
  let rf1 := if !truthyDec total0 && !line_items.isEmpty
    then { rf with total := total } else rf
  let confidence := calculate_confidence inv (pyOrDate rf.order_date rf.invoice_date)
    total rf.vendor_name line_items
  let requires_review :=
    decide (confidence < 7/10) || inv.isNone || total.isNone
  (rf1, confidence, requires_review)

end FieldParser

end SyncLedger

namespace SyncLedger

namespace RE

/-- Search success without regard to captures — used for vendor-pattern
matching in `MappingEngine.select_profile` (those patterns have no group). -/
def matchAtBool (re : RE) (t : List Char) (i : Nat) : Bool :=
  (matchRE t ((t.length + 2) * (size re + 2) * 4 + 64) re i none
    (fun _ c => some c)).isSome

/-- Boolean `re.search(pattern, s, re.IGNORECASE)`. -/
def searchBool (re : RE) (s : String) : Bool :=
  let t := (pyLower s).toList
  (List.range (t.length + 1)).any (fun i => matchAtBool re t i)

end RE

/-! ## Python dictionary values

The `raw_fields` dictionary handed to `MappingEngine.apply_mapping` is
heterogeneous: strings, parsed `date`s, `Decimal`s, and the float/bool
metadata (`confidence_score`, `requires_manual_review`) stored by
`parse_with_line_items`. -/

inductive PyVal where
  | vStr (s : String)
  | vDate (o : ℤ)
  | vDec (q : ℚ)
  | vFloat (q : ℚ)
  | vInt (n : ℤ)
  | vBool (b : Bool)
deriving Repr, DecidableEq

namespace PyVal

/-- Python truthiness. -/
def truthy : PyVal → Bool
  | vStr s => s ≠ ""
  | vDate _ => true
  | vDec q => q ≠ 0
  | vFloat q => q ≠ 0
  | vInt n => n ≠ 0
  | vBool b => b

end PyVal

/-- Truthiness of an optional value (`None` falsy). -/
def truthyVal : Option PyVal → Bool
  | none => false
  | some v => v.truthy

/-- Python `a or b` on optional dictionary values. -/
def pyOrVal (a b : Option PyVal) : Option PyVal :=
  if truthyVal a then a else b

/-- ISO string of a date ordinal (`str(date)` / `date.isoformat()`). -/
def isoStr (o : ℤ) : String :=
  let c := civilFromOrd o
  let pad : ℤ → Nat → String := fun v w =>
    let s := toString v.natAbs
    (String.mk (List.replicate (w - s.length) '0')) ++ s
  pad c.1 4 ++ "-" ++ pad c.2.1 2 ++ "-" ++ pad c.2.2 2

/-- Python `str(val)` on dictionary values (floats via their `repr`, dates via
`isoformat`; `Decimal` values print their decimal digits — the original
scale of a `Decimal` is not tracked by the `ℚ` model, which is irrelevant to
every theorem below, none of which inspects the string of a `Decimal`). -/
def pyStr : PyVal → String
  | .vStr s => s
  | .vDate o => isoStr o
  | .vDec q => decToStr q
  | .vFloat q => decToStr q
  | .vInt n => toString n
  | .vBool b => if b then "True" else "False"

/-- A Python dictionary with string keys, as an insertion-ordered
association list with unique keys. -/
abbrev PyDict := List (String × PyVal)

/-- `d.get(k)` / `d[k]` lookup. -/
def dictGet (m : PyDict) (k : String) : Option PyVal :=
  (m.find? (fun kv => kv.1 == k)).map Prod.snd

/-- `d[k] = v` assignment: replace in place, or append a new key. -/
def dictSet (m : PyDict) (k : String) (v : PyVal) : PyDict :=
  if m.any (fun kv => kv.1 == k) then
    m.map (fun kv => if kv.1 == k then (k, v) else kv)
  else m ++ [(k, v)]

/-! ## Mapping configuration (`models/mapping_config.py`)

Source and target field enums carry their string values (the pydantic models
set `use_enum_values = True`, so the rules hold plain strings at runtime).
`vendor_pattern` holds the transcribed regex. -/

inductive DateTransform where
  | none'
  | next_friday
  | next_monday
  | add_30_days
  | add_60_days
  | add_90_days
  | end_of_month
deriving Repr, DecidableEq

/-- The enum string value (`DateTransform.NEXT_FRIDAY.value = "next_friday"`). -/
def DateTransform.value : DateTransform → String
  | .none' => "none"
  | .next_friday => "next_friday"
  | .next_monday => "next_monday"
  | .add_30_days => "add_30_days"
  | .add_60_days => "add_60_days"
  | .add_90_days => "add_90_days"
  | .end_of_month => "end_of_month"

/-- `models/mapping_config.FieldMappingRule`. -/
structure FieldMappingRule where
  target_field : String
  source_field : Option String := none
  default_value : Option String := none
  fallback_source : Option String := none
  date_transform : Option DateTransform := none
  date_transform_source : Option String := none
  is_required : Bool := false
  description : Option String := none
deriving Repr, DecidableEq

/-- `models/mapping_config.InvoiceMappingProfile` (the `vendor_pattern` regex
string is carried in transcribed form). -/
structure InvoiceMappingProfile where
  id : Option String := none
  name : String
  description : Option String := none
  vendor_pattern : Option RE := none
  is_default : Bool := false
  organization_id : Option ℤ := none
  rules : List FieldMappingRule := []

/-- `vendor_pattern=r"(?i)MGD|Master\s+Gutters|Mayan.?s\s+Construction"` of
the built-in subcontractor profile. -/
def subcontractorVendorRE : RE :=
  ralt [rlit "mgd",
        rcat [rlit "master", rwsP, rlit "gutters"],
        rcat [rlit "mayan", RE.opt RE.anyc, rlit "s", rwsP, rlit "construction"]]

/-- `get_default_subcontractor_profile()` — transcribed rule list in source
order. -/
def get_default_subcontractor_profile : InvoiceMappingProfile :=
  { id := some "default-subcontractor"
    name := "Subcontractor Invoice (Default)"
    description := some "Default mapping for subcontractor invoices."
    vendor_pattern := some subcontractorVendorRE
    is_default := true
    rules :=
      [ { target_field := "invoice_number", source_field := some "po_number",
          fallback_source := some "invoice_number", is_required := true,
          description := some "Invoice No from the PO number" },
        { target_field := "total_amount", source_field := some "total",
          is_required := true, description := some "Total Amount" },
        { target_field := "due_date", source_field := some "due_date",
          date_transform := some .next_friday,
          date_transform_source := some "order_date",
          description := some "Payment Due Date next Friday from the Order Date" },
        { target_field := "gl_account", source_field := none,
          default_value := some "5100",
          description := some "GL Account default 5100" },
        { target_field := "project", source_field := some "opportunity_number",
          fallback_source := some "project_number",
          description := some "Project" },
        { target_field := "item", source_field := some "product_category",
          fallback_source := some "market_segment",
          description := some "Item" },
        { target_field := "location", source_field := some "vendor_address",
          description := some "Location" },
        { target_field := "subtotal", source_field := some "subtotal",
          description := some "Subtotal" },
        { target_field := "tax_amount", source_field := some "tax_amount",
          default_value := some "0", description := some "Tax amount" },
        { target_field := "invoice_date", source_field := some "order_date",
          fallback_source := some "invoice_date",
          description := some "Invoice date" },
        { target_field := "vendor_name", source_field := some "vendor_name",
          is_required := true, description := some "Vendor name" },
        { target_field := "vendor_address", source_field := some "vendor_address",
          description := some "Vendor address" },
        { target_field := "vendor_email", source_field := some "vendor_email",
          description := some "Vendor email" },
        { target_field := "vendor_phone", source_field := some "vendor_phone",
          description := some "Vendor phone" },
        { target_field := "po_number", source_field := some "po_number",
          description := some "Original PO number" } ] }

/-- `get_standard_invoice_profile()` — transcribed rule list in source order
(no vendor pattern, not a default). -/
def get_standard_invoice_profile : InvoiceMappingProfile :=
  { id := some "standard-invoice"
    name := "Standard Invoice"
    description := some "Standard mapping for typical vendor invoices."
    is_default := false
    rules :=
      [ { target_field := "invoice_number", source_field := some "invoice_number",
          fallback_source := some "po_number", is_required := true,
          description := some "Invoice number" },
        { target_field := "po_number", source_field := some "po_number",
          description := some "PO number" },
        { target_field := "total_amount", source_field := some "total",
          is_required := true, description := some "Total amount" },
        { target_field := "subtotal", source_field := some "subtotal",
          description := some "Subtotal" },
        { target_field := "tax_amount", source_field := some "tax_amount",
          default_value := some "0", description := some "Tax amount" },
        { target_field := "due_date", source_field := some "due_date",
          date_transform := some .add_30_days,
          date_transform_source := some "invoice_date",
          description := some "Due date Net 30" },
        { target_field := "invoice_date", source_field := some "invoice_date",
          fallback_source := some "order_date",
          description := some "Invoice date" },
        { target_field := "vendor_name", source_field := some "vendor_name",
          is_required := true, description := some "Vendor name" },
        { target_field := "vendor_address", source_field := some "vendor_address",
          description := some "Vendor address" },
        { target_field := "vendor_email", source_field := some "vendor_email",
          description := some "Vendor email" },
        { target_field := "vendor_phone", source_field := some "vendor_phone",
          description := some "Vendor phone" },
        { target_field := "gl_account", source_field := none,
          default_value := some "5000",
          description := some "GL Account default" },
        { target_field := "project", source_field := some "project_number",
          fallback_source := some "opportunity_number",
          description := some "Project number" },
        { target_field := "location", source_field := some "vendor_address",
          description := some "Location" } ] }

/-! ## MappingEngine (`services/mapping_engine.py`) -/

namespace MappingEngine

/-- `MappingEngine._next_weekday`: `days_ahead = weekday - d.weekday(); if
days_ahead <= 0: days_ahead += 7; return d + timedelta(days=days_ahead)`. -/
def next_weekday (d : ℤ) (wd : ℤ) : ℤ :=
  let days_ahead := wd - weekday d
  let days_ahead := if days_ahead ≤ 0 then days_ahead + 7 else days_ahead
  d + days_ahead

/-- The guarded raw-field lookup `raw_fields.get(key) if key else None`
shared by the source-field, fallback-source and transform-source reads. -/
def lookupField (raw_fields : PyDict) : Option String → Option PyVal
  | some s => if s ≠ "" then dictGet raw_fields s else none
  | none => none

/-- `MappingEngine._apply_date_transform`.  `parseDate` models the external
`dateutil.parser.parse(s).date()` call (`none` where it raises); `today`
models `date.today()`. -/
def apply_date_transform (parseDate : String → Option ℤ) (today : ℤ)
    (current_value : Option PyVal) (transform : DateTransform)
    (transform_source : Option String) (raw_fields : PyDict) : Option PyVal :=
  let base0 : Option PyVal := lookupField raw_fields transform_source
  let base1 : Option PyVal :=
    match base0 with
    | none => current_value
    | some v => some v
  let baseD : ℤ :=
    match base1 with
    | none => today
    | some (.vDate d) => d
    | some (.vStr s) => (parseDate s).getD today
    | some _ => today
  match transform with
  | .next_friday => some (.vDate (next_weekday baseD 4))
  | .next_monday => some (.vDate (next_weekday baseD 0))
  | .add_30_days => some (.vDate (baseD + 30))
  | .add_60_days => some (.vDate (baseD + 60))
  | .add_90_days => some (.vDate (baseD + 90))
  | .end_of_month =>
      let c := civilFromOrd baseD
      some (.vDate (dateOrd c.1 c.2.1 (lastDayOfMonth c.1 c.2.1)))
  | .none' =>
      match current_value with
      | some (.vDate d) => some (.vDate d)
      | _ => none

/-- `MappingEngine._resolve_value_traced`: primary source, fallback source if
the value is still `None`, the date transform if one is configured, and the
literal default if the value is still `None`; also returns the
`actual_source` trace string. -/
def resolve_value_traced (parseDate : String → Option ℤ) (today : ℤ)
    (rule : FieldMappingRule) (raw_fields : PyDict) :
    Option PyVal × Option String :=
  let v0 : Option PyVal := lookupField raw_fields rule.source_field
  let src0 : Option String := if v0.isSome then rule.source_field else none
  let v1 : Option PyVal :=
    if v0.isNone then lookupField raw_fields rule.fallback_source else v0
  let src1 : Option String :=
    if v0.isNone then (if v1.isSome then rule.fallback_source else src0) else src0
  let transformed : Option PyVal × Option String :=
    match rule.date_transform with
    | some t =>
        if t ≠ .none' then
          let src := pyOrStr rule.date_transform_source src1
          let v2 := apply_date_transform parseDate today v1 t
            rule.date_transform_source raw_fields
          (v2, if truthyStr src then
                 some ((src.getD "") ++ " → " ++ t.value)
               else some t.value)
        else (v1, src1)
    | none => (v1, src1)
  let v2 := transformed.1
  let src2 := transformed.2
  if v2.isNone then
    match rule.default_value with
    | some dv => (some (.vStr dv), some ("default (" ++ dv ++ ")"))
    | none => (none, src2)
  else (v2, src2)

/-- The vendor-pattern test `profile.vendor_pattern and
re.search(profile.vendor_pattern, vendor_name, re.IGNORECASE)` of
`select_profile`. -/
def vendorSearch (p : InvoiceMappingProfile) (vn : String) : Bool :=
  match p.vendor_pattern with
  | some re => RE.searchBool re vn
  | none => false

/-- `MappingEngine.select_profile`: explicit id, organization-scoped vendor
pattern, global vendor pattern, organization default (only when the
organization id is truthy), global default, and finally the built-in
subcontractor profile.  The registry is the engine's `_profiles` dict in
insertion order. -/
def select_profile (registry : List InvoiceMappingProfile)
    (vendor_name : Option String) (profile_id : Option String)
    (organization_id : Option ℤ) : InvoiceMappingProfile :=
  let explicit : Option InvoiceMappingProfile :=
    if truthyStr profile_id then registry.find? (fun p => p.id == profile_id)
    else none
  let orgVendor : Option InvoiceMappingProfile :=
    match vendor_name with
    | some vn =>
        if vn ≠ "" then
          registry.find? (fun p =>
            p.vendor_pattern.isSome && p.organization_id == organization_id
              && vendorSearch p vn)
        else none
    | none => none
  let globVendor : Option InvoiceMappingProfile :=
    match vendor_name with
    | some vn =>
        if vn ≠ "" then
          registry.find? (fun p =>
            p.vendor_pattern.isSome && p.organization_id == none
              && vendorSearch p vn)
        else none
    | none => none
  let orgDefault : Option InvoiceMappingProfile :=
    registry.find? (fun p =>
      p.is_default &&
        (match organization_id with
         | some o => decide (o ≠ 0) && p.organization_id == some o
         | none => false))
  let globDefault : Option InvoiceMappingProfile :=
    registry.find? (fun p => p.is_default && p.organization_id == none)
  ((((explicit.orElse (fun _ => orgVendor)).orElse (fun _ => globVendor)).orElse
      (fun _ => orgDefault)).orElse (fun _ => globDefault)).getD
    get_default_subcontractor_profile

/-- `MappingEngine.register_profile` on the registry dict (keyed by id;
profiles without a truthy id are ignored). -/
def register_profile (registry : List InvoiceMappingProfile)
    (p : InvoiceMappingProfile) : List InvoiceMappingProfile :=
  if truthyStr p.id then
    if registry.any (fun q => q.id == p.id) then
      registry.map (fun q => if q.id == p.id then p else q)
    else registry ++ [p]
  else registry

/-- The registry after `MappingEngine.__init__` (`_load_builtin_profiles`). -/
def builtinRegistry : List InvoiceMappingProfile :=
  register_profile (register_profile [] get_default_subcontractor_profile)
    get_standard_invoice_profile

end MappingEngine

end SyncLedger

namespace SyncLedger

namespace MappingEngine

/-- `MappingEngine._build_invoice_data` with its three local coercions
`get_decimal` (re-parse non-`Decimal` values after dropping `,` and `$`),
`get_date` (accept `date`s, fuzzy-parse strings) and `get_str`.
`confidence_score` and `requires_manual_review` are copied from `raw_fields`
with defaults `0.0` and `False`; the pipeline only ever stores a float and a
bool under those keys. -/
def build_invoice_data (parseDate : String → Option ℤ) (mapped : PyDict)
    (line_items : List LineItem) (raw_fields : PyDict) : InvoiceData :=
  let get_decimal : String → Option ℚ := fun k =>
    match dictGet mapped k with
    | none => none
    | some (.vDec q) => some q
    | some v => parseDec (String.mk
        ((pyStr v).toList.filter (fun c => c ≠ ',' && c ≠ '$')))
  let get_date : String → Option ℤ := fun k =>
    match dictGet mapped k with
    | some (.vDate d) => some d
    | some (.vStr s) => parseDate s
    | _ => none
  let get_str : String → Option String := fun k => (dictGet mapped k).map pyStr
  let total := get_decimal "total_amount"
  let subtotal0 := get_decimal "subtotal"
  let tax := get_decimal "tax_amount"
  let subtotal :=
    if subtotal0.isNone && total.isSome && (tax.isNone || tax == some 0)
    then total else subtotal0
  { invoice_number := get_str "invoice_number"
    po_number := get_str "po_number"
    vendor :=
      { name := get_str "vendor_name"
        address := get_str "vendor_address"
        email := get_str "vendor_email"
        phone := get_str "vendor_phone" }
    invoice_date := get_date "invoice_date"
    due_date := get_date "due_date"
    subtotal := subtotal
    tax_amount := tax
    total_amount := total
    line_items := line_items
    confidence_score :=
      (match dictGet raw_fields "confidence_score" with
       | some (.vFloat q) => q
       | some (.vDec q) => q
       | some (.vInt n) => (n : ℚ)
       | _ => 0)
    requires_manual_review :=
      (match dictGet raw_fields "requires_manual_review" with
       | some (.vBool b) => b
       | _ => false)
    raw_text := (dictGet raw_fields "raw_text").map pyStr }

/-- One entry of the `field_mappings` trace list built by `apply_mapping`. -/
structure FieldMappingTrace where
  target : String
  source : Option String
  value : String
  rule : String
deriving Repr

/-- Accumulator of the rule loop in `apply_mapping`. -/
structure ApplyAcc where
  mapped : PyDict
  unmapped : List String
  traces : List FieldMappingTrace

/-- `mapping_engine.MappedInvoiceResult`. -/
structure MappedInvoiceResult where
  invoice_data : InvoiceData
  profile_used : InvoiceMappingProfile
  mapped_fields : PyDict
  unmapped_required : List String
  field_mappings : List FieldMappingTrace
  gl_account : Option PyVal
  project : Option PyVal
  item : Option PyVal
  location : Option PyVal
  cost_center : Option PyVal

/-- `MappingEngine.apply_mapping`.  The per-rule loop resolves each rule
(recording traces and required-but-unresolved targets), then the GL account
is read back from the mapped dict and — when it is truthy and line items
exist — the backfill loop `for item in line_items: if not
item.gl_account_code: ...` executes.  The pydantic model
`models.invoice_data.LineItem` declares no `gl_account_code` field (only the
ORM model `db_models.InvoiceLineItem` has that column), and attribute access
for an undeclared field on a pydantic model raises `AttributeError`, so that
loop raises on its first iteration; this is modelled by the `Except.error`
branch.  On the remaining paths the result is assembled as in the source. -/
def apply_mapping (registry : List InvoiceMappingProfile)
    (parseDate : String → Option ℤ) (today : ℤ)
    (raw_fields : PyDict) (line_items : List LineItem)
    (profileArg : Option InvoiceMappingProfile)
    (profile_id : Option String) (organization_id : Option ℤ) :
    Except String MappedInvoiceResult :=
  let vendor_name : Option String :=
    match dictGet raw_fields "vendor_name" with
    | some (.vStr s) => some s
    | _ => none
  let profile :=
    match profileArg with
    | some p => p
    | none => select_profile registry vendor_name profile_id organization_id
  let acc : ApplyAcc := profile.rules.foldl (fun acc rule =>
    let r := resolve_value_traced parseDate today rule raw_fields
    match r.1 with
    | some v =>
        { acc with
          mapped := dictSet acc.mapped rule.target_field v
          traces := acc.traces ++
            [{ target := rule.target_field
               source := r.2
               value := pyStr v
               rule := rule.description.getD
                 (rule.target_field ++ " ← " ++ r.2.getD "None") }] }
    | none =>
        if rule.is_required then
          { acc with unmapped := acc.unmapped ++ [rule.target_field] }
        else acc) ⟨[], [], []⟩
  let gl_account := pyOrVal (dictGet acc.mapped "gl_account")
    (dictGet acc.mapped "gl_account")
  if truthyVal gl_account && !line_items.isEmpty then
    Except.error "AttributeError: LineItem object has no attribute gl_account_code"
  else
    Except.ok
      { invoice_data := build_invoice_data parseDate acc.mapped line_items raw_fields
        profile_used := profile
        mapped_fields := acc.mapped
        unmapped_required := acc.unmapped
        field_mappings := acc.traces
        gl_account := gl_account
        project := pyOrVal (dictGet acc.mapped "project") (dictGet acc.mapped "project")
        item := pyOrVal (dictGet acc.mapped "item") (dictGet acc.mapped "item")
        location := pyOrVal (dictGet acc.mapped "location") (dictGet acc.mapped "location")
        cost_center := pyOrVal (dictGet acc.mapped "cost_center")
          (dictGet acc.mapped "cost_center") }

end MappingEngine

end SyncLedger

namespace SyncLedger

/-! ## Cross-validation (`services/validation_service.py`, `services/ai_models.py`) -/

/-- `ai_models.AILineItem` (only the fields the validation service could
touch; the line-item consistency checks produce audit notes only). -/
structure AILineItem where
  line_number : ℤ := 1
  description : Option String := none
  quantity : Option ℚ := none
  unit_price : Option ℚ := none
  line_total : Option ℚ := none
deriving Repr

/-- `ai_models.AIVendorInfo`. -/
structure AIVendorInfo where
  name : Option String := none
  address : Option String := none
  email : Option String := none
  phone : Option String := none
  tax_id : Option String := none
  website : Option String := none
deriving Repr

/-- `ai_models.AIInvoiceExtraction` (the fields `validate` and
`_ai_to_comparable` read; dates are ISO strings, amounts floats). -/
structure AIInvoiceExtraction where
  invoice_number : Option String := none
  po_number : Option String := none
  vendor : AIVendorInfo := {}
  invoice_date : Option String := none
  due_date : Option String := none
  subtotal : Option ℚ := none
  tax_amount : Option ℚ := none
  discount_amount : Option ℚ := none
  shipping_amount : Option ℚ := none
  total_amount : Option ℚ := none
  line_items : List AILineItem := []
  ai_confidence : Option ℚ := none
deriving Repr

/-- `ai_models.FieldValidation` (`match` is a Lean keyword, so the flag is
called `isMatch`; `note` strings are not modelled). -/
structure FieldValidation where
  field_name : String
  ai_value : Option String := none
  regex_value : Option String := none
  isMatch : Bool := false
  confidence_adjustment : ℚ := 0
deriving Repr, DecidableEq

/-- `ai_models.CrossValidationResult` (audit `notes` are not modelled; they
never influence any numeric field or flag). -/
structure CrossValidationResult where
  total_fields_compared : Nat := 0
  matching_fields : Nat := 0
  mismatched_fields : Nat := 0
  ai_only_fields : Nat := 0
  regex_only_fields : Nat := 0
  validation_score : ℚ := 0
  field_validations : List FieldValidation := []
  final_confidence : ℚ := 0
  recommended_review : Bool := false
deriving Repr

namespace CrossValidationService

/-- `CrossValidationService.CRITICAL_FIELDS` with weights, in dict order. -/
def CRITICAL_FIELDS : List (String × ℚ) :=
  [("invoice_number", 20/100), ("total_amount", 25/100),
   ("vendor_name", 15/100), ("invoice_date", 10/100)]

/-- `CrossValidationService.IMPORTANT_FIELDS` with weights, in dict order. -/
def IMPORTANT_FIELDS : List (String × ℚ) :=
  [("subtotal", 8/100), ("tax_amount", 5/100), ("due_date", 5/100),
   ("po_number", 5/100), ("vendor_email", 3/100), ("vendor_phone", 2/100),
   ("vendor_address", 2/100)]

/-- `CRITICAL_FIELDS.get(f, 0)`. -/
def criticalWeight (f : String) : ℚ :=
  ((CRITICAL_FIELDS.find? (fun p => p.1 == f)).map Prod.snd).getD 0

/-- `IMPORTANT_FIELDS.get(f, 0)`. -/
def importantWeight (f : String) : ℚ :=
  ((IMPORTANT_FIELDS.find? (fun p => p.1 == f)).map Prod.snd).getD 0

/-- `re.sub(r'\s+', ' ', s)`: collapse each whitespace run to one space. -/
def collapseWs (s : String) : String :=
  String.mk (s.toList.foldr
    (fun c acc =>
      if isPySpace c then (if acc.head? == some ' ' then acc else ' ' :: acc)
      else c :: acc) [])

/-- `CrossValidationService._amounts_match`: strip `,`/`$`, parse as floats,
accept within the $0.02 absolute or 0.5% relative tolerance; unparseable
values fall back to stripped string equality. -/
def amounts_match (a b : String) : Bool :=
  let clean : String → Option ℚ := fun s =>
    parseDec (String.mk (s.toList.filter (fun c => c ≠ ',' && c ≠ '$')))
  match clean a, clean b with
  | some va, some vb =>
      if |va - vb| ≤ 2/100 then true
      else
        let mx := max |va| |vb|
        decide (0 < mx) && decide (|va - vb| / mx ≤ 5/1000)
  | _, _ => pyStrip a == pyStrip b

/-- `CrossValidationService._strings_match`: case/whitespace-normalised
equality, substring containment for strings longer than 3 characters, and
equality after removing `.` and `,`. -/
def strings_match (a b : String) : Bool :=
  let norm : String → String := fun s => collapseWs (pyStrip (pyLower s))
  let na := norm a
  let nb := norm b
  if na == nb then true
  else if decide (3 < na.length) && decide (3 < nb.length)
      && (decide (List.IsInfix na.toList nb.toList)
          || decide (List.IsInfix nb.toList na.toList)) then true
  else
    (na.toList.filter (fun c => c ≠ '.' && c ≠ ',')) ==
    (nb.toList.filter (fun c => c ≠ '.' && c ≠ ','))

/-- `CrossValidationService._dates_match` (`parseDate` models
`dateutil.parser.parse(s).date()`; a parse failure on either side falls back
to string matching). -/
def dates_match (parseDate : String → Option ℤ) (a b : String) : Bool :=
  match parseDate a, parseDate b with
  | some da, some db => da == db
  | _, _ => strings_match a b

/-- `CrossValidationService._values_match` dispatch (always called with two
present values by `_compare_field`). -/
def values_match (parseDate : String → Option ℤ) (field a b : String) : Bool :=
  if field == "total_amount" || field == "subtotal" || field == "tax_amount"
      || field == "discount_amount" || field == "shipping_amount" then
    amounts_match a b
  else if field == "invoice_date" || field == "due_date" then
    dates_match parseDate a b
  else
    strings_match a b

/-- `CrossValidationService._compare_field`: both-null counts as a zero-weight
match, AI-only earns half weight, regex-only earns nothing, and two present
values are compared with `_values_match` (full weight on match, minus half
weight on mismatch). -/
def compare_field (parseDate : String → Option ℤ) (field : String)
    (ai_value regex_value : Option String) (weight : ℚ) : FieldValidation :=
  match ai_value, regex_value with
  | none, none =>
      { field_name := field, isMatch := true, confidence_adjustment := 0 }
  | none, some rv =>
      { field_name := field, regex_value := some rv, isMatch := false,
        confidence_adjustment := 0 }
  | some av, none =>
      { field_name := field, ai_value := some av, isMatch := false,
        confidence_adjustment := weight * (1/2) }
  | some av, some rv =>
      let m := values_match parseDate field av rv
      { field_name := field, ai_value := some av, regex_value := some rv,
        isMatch := m,
        confidence_adjustment := if m then weight else -weight * (1/2) }

/-- `CrossValidationService._ai_to_comparable` (`ai_result.vendor` is always
a model instance and model instances are always truthy, so the vendor
sub-fields are read unconditionally; floats are stringified). -/
def ai_to_comparable (ai : AIInvoiceExtraction) : List (String × Option String) :=
  [("invoice_number", ai.invoice_number),
   ("po_number", ai.po_number),
   ("vendor_name", ai.vendor.name),
   ("vendor_email", ai.vendor.email),
   ("vendor_phone", ai.vendor.phone),
   ("vendor_address", ai.vendor.address),
   ("invoice_date", ai.invoice_date),
   ("due_date", ai.due_date),
   ("total_amount", ai.total_amount.map decToStr),
   ("subtotal", ai.subtotal.map decToStr),
   ("tax_amount", ai.tax_amount.map decToStr)]

/-- The `to_str` helper of `_regex_to_comparable`: dates via `isoformat`,
`Decimal`s via `str(float(_))`, everything else via `str`. -/
def regexToStr : PyVal → String
  | .vDate d => isoStr d
  | .vDec q => decToStr q
  | v => pyStr v

/-- `CrossValidationService._regex_to_comparable`. -/
def regex_to_comparable (rf : PyDict) : List (String × Option String) :=
  let g : String → Option String := fun k => (dictGet rf k).map regexToStr
  [("invoice_number", g "invoice_number"),
   ("po_number", g "po_number"),
   ("vendor_name", g "vendor_name"),
   ("vendor_email", g "vendor_email"),
   ("vendor_phone", g "vendor_phone"),
   ("vendor_address", g "vendor_address"),
   ("invoice_date",
     (pyOrVal (dictGet rf "invoice_date") (dictGet rf "order_date")).map regexToStr),
   ("due_date", g "due_date"),
   ("total_amount", g "total"),
   ("subtotal", g "subtotal"),
   ("tax_amount", g "tax_amount")]

/-- Lookup in a comparable dict (all eleven keys are always present). -/
def cmpGet (l : List (String × Option String)) (k : String) : Option String :=
  ((l.find? (fun p => p.1 == k)).map Prod.snd).getD none

/-- `CrossValidationService._calculate_final_confidence`: with no compared
fields the oracle confidence is returned unchanged; otherwise the 0.6/0.4
blend, plus 0.05 when no compared pair mismatched and at least one
validation matched, plus `min(0.02 × ai_only, 0.06)` when the oracle found
fields the extractor missed, clamped to [0, 1]. -/
def calculate_final_confidence (ai_confidence validation_score : ℚ)
    (matching mismatched ai_only total_compared : Nat) : ℚ :=
  if total_compared == 0 then ai_confidence
  else
    let base := ai_confidence * (6/10) + validation_score * (4/10)
    let base := if mismatched == 0 && decide (0 < matching) then base + 5/100 else base
    let base :=
      if decide (0 < ai_only) && decide (0 < total_compared) then
        base + min ((ai_only : ℚ) * (2/100)) (6/100)
      else base
    max 0 (min 1 base)

/-- `CrossValidationService.validate`: build the two comparable dicts,
compare the four critical and seven important fields in dict order,
aggregate the counts and the weighted validation score, blend the final
confidence and set the review flag.  The line-item count/sum consistency
checks (source lines 99-130) only append audit notes and are not modelled. -/
def validate (parseDate : String → Option ℤ) (ai : AIInvoiceExtraction)
    (regex_fields : PyDict) (regex_line_items : List LineItem) :
    CrossValidationResult :=
  let _ := regex_line_items
  let aiF := ai_to_comparable ai
  let rxF := regex_to_comparable regex_fields
  let validations := (CRITICAL_FIELDS ++ IMPORTANT_FIELDS).map
    (fun fw => compare_field parseDate fw.1 (cmpGet aiF fw.1) (cmpGet rxF fw.1) fw.2)
  let total_compared := (validations.filter
    (fun v => truthyStr v.ai_value || truthyStr v.regex_value)).length
  let matching := (validations.filter (fun v => v.isMatch)).length
  let mismatched := (validations.filter
    (fun v => !v.isMatch && truthyStr v.ai_value && truthyStr v.regex_value)).length
  let ai_only := (validations.filter
    (fun v => truthyStr v.ai_value && !truthyStr v.regex_value)).length
  let regex_only := (validations.filter
    (fun v => truthyStr v.regex_value && !truthyStr v.ai_value)).length
  let total_weight := ((validations.filter (fun v => v.isMatch)).map
    (fun v => v.confidence_adjustment)).sum
  let max_weight := ((validations.filter
    (fun v => truthyStr v.ai_value || truthyStr v.regex_value)).map
    (fun v => criticalWeight v.field_name + importantWeight v.field_name)).sum
  let validation_score := if 0 < max_weight then total_weight / max_weight else 1/2
  let ai_confidence :=
    match ai.ai_confidence with
    | some c => if c ≠ 0 then c else 7/10
    | none => 7/10
  let final_confidence := calculate_final_confidence ai_confidence
    validation_score matching mismatched ai_only total_compared
  let recommended_review :=
    decide (final_confidence < 7/10) ||
      validations.any (fun v =>
        !v.isMatch && CRITICAL_FIELDS.any (fun p => p.1 == v.field_name)
          && truthyStr v.ai_value && truthyStr v.regex_value)
  { total_fields_compared := total_compared
    matching_fields := matching
    mismatched_fields := mismatched
    ai_only_fields := ai_only
    regex_only_fields := regex_only
    validation_score := pyRound validation_score 3
    field_validations := validations
    final_confidence := pyRound final_confidence 3
    recommended_review := recommended_review }

end CrossValidationService

end SyncLedger

namespace SyncLedger

open FieldParser

/-! ## Supporting definitions for the verification -/

/-- Numerator of an optional rational (0 for `none`). -/
def optNum (o : Option ℚ) : ℤ := match o with | some q => q.num | none => 0

/-- Denominator of an optional rational (0 for `none`, which no rational has). -/
def optDen (o : Option ℚ) : Nat := match o with | some q => q.den | none => 0

/-- The spec's description of per-rule value resolution: primary source
lookup, then the fallback source if the value is still null, then — when a
date transform is configured — the transformed date (computed by
`_apply_date_transform` from the transform's designated source field, the
already-resolved value, or today), then the literal default if still null. -/
def resolve_value_spec (parseDate : String → Option ℤ) (today : ℤ)
    (rule : FieldMappingRule) (raw_fields : PyDict) : Option PyVal :=
  let primary := MappingEngine.lookupField raw_fields rule.source_field
  let afterFallback := Option.orElse primary
    (fun _ => MappingEngine.lookupField raw_fields rule.fallback_source)
  let afterTransform :=
    match rule.date_transform with
    | some t =>
        if t ≠ DateTransform.none' then
          MappingEngine.apply_date_transform parseDate today afterFallback t
            rule.date_transform_source raw_fields
        else afterFallback
    | none => afterFallback
  Option.orElse afterTransform (fun _ => rule.default_value.map PyVal.vStr)

/-- The scenario rule of C5: `due_date` from source `due_date` with the
`next_friday` transform sourced from `order_date` (the third rule of the
built-in subcontractor profile). -/
def c5rule : FieldMappingRule :=
  { target_field := "due_date", source_field := some "due_date",
    date_transform := some .next_friday,
    date_transform_source := some "order_date" }

/-- Raw fields of the C5 scenario: `order_date = 2024-03-06`, no `due_date`. -/
def c5raw : PyDict := [("order_date", PyVal.vDate (dateOrd 2024 3 6))]

/-- A registered profile with no rules, used to probe the review flag and
confidence score that `_build_invoice_data` copies from `raw_fields`. -/
def c1profile : InvoiceMappingProfile :=
  { id := some "empty-rules", name := "Empty", rules := [] }

/-- Raw fields holding a high stored confidence and a `False` review flag. -/
def c1raw : PyDict :=
  [("confidence_score", PyVal.vFloat (4/5)),
   ("requires_manual_review", PyVal.vBool false)]

/-- The mapping result of the C1 counterexample run. -/
def c1res : Except String MappingEngine.MappedInvoiceResult :=
  MappingEngine.apply_mapping MappingEngine.builtinRegistry (fun _ => none) 0
    c1raw [] (some c1profile) none none

/-- The C4 scenario profile: vendor pattern `(?i)MGD|Master Gutters`, no
organization id, registered under id `mgd-custom`. -/
def mgdCustomProfile : InvoiceMappingProfile :=
  { id := some "mgd-custom", name := "MGD Custom",
    vendor_pattern := some (ralt [rlit "mgd", rlit "master gutters"]),
    rules := [] }

/-- A plain default profile with no vendor pattern. -/
def plainDefaultProfile : InvoiceMappingProfile :=
  { id := some "plain-default", name := "Plain default", is_default := true,
    rules := [] }

/-- The engine registry after additionally registering `mgdCustomProfile`. -/
def registryWithMgd : List InvoiceMappingProfile :=
  MappingEngine.register_profile MappingEngine.builtinRegistry mgdCustomProfile

/-- The C7 counterexample oracle extraction: only a subtotal and a
self-reported confidence of 0.8. -/
def c7ai : AIInvoiceExtraction :=
  { subtotal := some 100, ai_confidence := some (8/10) }

/-- The C7 counterexample regex fields: a conflicting subtotal. -/
def c7rf : PyDict := [("subtotal", PyVal.vDec 200)]

/-- The cross-validation result of the C7 counterexample run. -/
def c7res : CrossValidationResult :=
  CrossValidationService.validate (fun _ => none) c7ai c7rf []

/-- One line item with no populated optional fields. -/
def c9items : List LineItem := [{ line_number := 1 }]

/-- Raw fields of the C10 witness: the total parsed as `Decimal("0")`. -/
def c10rf : RawParsed := { total := some 0 }

/-- Line items of the C10 witness: one complete item with line total 100. -/
def c10items : List LineItem :=
  [{ line_number := 1, quantity := some 1, line_total := some 100 }]

end SyncLedger

namespace SyncLedger

open FieldParser MappingEngine

/-! ## C6 — next_friday / next_monday strict futurity -/

/-- C6: for every base date `d` and weekday index `w` (0 = Monday, ...,
4 = Friday), `MappingEngine._next_weekday` returns the strictly-future next
occurrence of that weekday: the result is after `d`, at most `d + 7`, falls
on weekday `w`, equals `d + 7` when `d` itself falls on `w` (never `d`), and
`next_friday` of a Saturday is that date plus 6 days. -/
theorem next_weekday_closed_form (d w : ℤ) :
    next_weekday d w =
      d + (if w - (d + 6) % 7 ≤ 0 then w - (d + 6) % 7 + 7 else w - (d + 6) % 7) := rfl

theorem weekday_emod (o : ℤ) : weekday o = (o + 6) % 7 := rfl

theorem C6_next_weekday_strict_future (d w : ℤ) (h0 : 0 ≤ w) (h7 : w < 7) :
    d < next_weekday d w
    ∧ next_weekday d w ≤ d + 7
    ∧ weekday (next_weekday d w) = w
    ∧ (weekday d = w → next_weekday d w = d + 7)
    ∧ (w = 4 → weekday d = 5 → next_weekday d w = d + 6) := by
  rw [next_weekday_closed_form]
  simp only [weekday_emod]
  split_ifs with hle
  · exact ⟨by omega, by omega, by omega, by omega, by omega⟩
  · exact ⟨by omega, by omega, by omega, by omega, by omega⟩

/-- Witness for C6 at 2024-03-08, a Friday: its `next_friday` is 2024-03-15
(seven days later), and 2024-03-09, a Saturday, maps to the same 2024-03-15
(six days later). -/
theorem C6_next_weekday_witness :
    (0 : ℤ) ≤ 4 ∧ (4 : ℤ) < 7
    ∧ next_weekday (dateOrd 2024 3 8) 4 = dateOrd 2024 3 8 + 7
    ∧ next_weekday (dateOrd 2024 3 9) 4 = dateOrd 2024 3 9 + 6 := by
  refine ⟨by norm_num, by norm_num, ?_, ?_⟩
  · exact (C6_next_weekday_strict_future (dateOrd 2024 3 8) 4 (by norm_num)
      (by norm_num)).2.2.2.1 (by decide)
  · exact (C6_next_weekday_strict_future (dateOrd 2024 3 9) 4 (by norm_num)
      (by norm_num)).2.2.2.2 rfl (by decide)

/-! ## C2 — round-trip amount parsing -/

theorem opt_eq_some_of_den_num {o : Option ℚ} {q : ℚ}
    (hd : optDen o = q.den) (hn : optNum o = q.num) : o = some q := by
  cases o with
  | none =>
      exfalso
      have hp := q.pos
      simp only [optDen] at hd
      omega
  | some r =>
      simp only [optNum, optDen] at hn hd
      exact congrArg some (Rat.ext hn hd)


set_option maxRecDepth 8192 in
/-- C2 counterexample: after the matching `EXTENDED NET` label, the
parenthesized credit-memo amount `($821.76)` does *not* extract to the exact
decimal `-821.76` — `_extract_amount` strips parentheses and any leading `-`
before parsing, so the sign is lost. -/
theorem C2_paren_negative_counterexample :
    extract_amount totalPatterns "EXTENDED NET: ($821.76)" ≠ some (-(82176/100)) := by
  have e3 : extract_pattern totalPatterns "EXTENDED NET: ($821.76)" = some "821.76" := by
    decide
  have hv : extract_amount totalPatterns "EXTENDED NET: ($821.76)"
      = some (mkRat 82176 100) := by
    unfold extract_amount
    rw [e3]
    refine opt_eq_some_of_den_num ?_ ?_
    · with_unfolding_all decide
    · with_unfolding_all decide
  rw [hv, Rat.mkRat_eq_div]
  simp only [ne_eq, Option.some.injEq]
  norm_num

set_option maxRecDepth 8192 in
/-- C2 (amended): after a matching total label, `"$1,234.56"` and
`"1234.56"` extract to the exact decimal 1234.56, and the parenthesized form
`"($821.76)"` extracts to the exact decimal +821.76 — the magnitude is
exact, but the parentheses/sign are dropped, not negated. -/
theorem C2_amount_roundtrip :
    extract_amount totalPatterns "Total Due: $1,234.56" = some (123456/100)
    ∧ extract_amount totalPatterns "Total Due: 1234.56" = some (123456/100)
    ∧ extract_amount totalPatterns "EXTENDED NET: ($821.76)" = some (82176/100) := by
  have e1 : extract_pattern totalPatterns "Total Due: $1,234.56" = some "1,234.56" := by
    decide
  have e2 : extract_pattern totalPatterns "Total Due: 1234.56" = some "1234.56" := by
    decide
  have e3 : extract_pattern totalPatterns "EXTENDED NET: ($821.76)" = some "821.76" := by
    decide
  refine ⟨?_, ?_, ?_⟩
  · have hv : extract_amount totalPatterns "Total Due: $1,234.56"
        = some (mkRat 123456 100) := by
      unfold extract_amount
      rw [e1]
      refine opt_eq_some_of_den_num ?_ ?_
      · with_unfolding_all decide
      · with_unfolding_all decide
    rw [hv, Rat.mkRat_eq_div]
    norm_num
  · have hv : extract_amount totalPatterns "Total Due: 1234.56"
        = some (mkRat 123456 100) := by
      unfold extract_amount
      rw [e2]
      refine opt_eq_some_of_den_num ?_ ?_
      · with_unfolding_all decide
      · with_unfolding_all decide
    rw [hv, Rat.mkRat_eq_div]
    norm_num
  · have hv : extract_amount totalPatterns "EXTENDED NET: ($821.76)"
        = some (mkRat 82176 100) := by
      unfold extract_amount
      rw [e3]
      refine opt_eq_some_of_den_num ?_ ?_
      · with_unfolding_all decide
      · with_unfolding_all decide
    rw [hv, Rat.mkRat_eq_div]
    norm_num

/-! ## C8 — absent vs empty-string fields -/

/-- C8 counterexample: on the input `"phone: \nhello"` the first phone
pattern of `parse_raw_fields` matches with a whitespace-only capture (the
greedy `\s*` backtracks one character and the character class `[\d\-\(\)\s\+]`
accepts the newline), so after `.strip()` the `vendor_phone` field of the
returned dictionary is the empty string — not `None` and not absent. -/
theorem C8_empty_string_counterexample :
    vendor_phone_field "phone: \nhello" = some "" := by
  decide

theorem firstValidatedMatch_passes_validation (valid : String → Bool) :
    ∀ (ps : List RE) (text : String) (v : String),
      firstValidatedMatch ps valid text = some v → valid v = true := by
  intro ps
  induction ps with
  | nil => intro text v h; simp [firstValidatedMatch] at h
  | cons p rest ih =>
      intro text v h
      rw [firstValidatedMatch, List.findSome?_cons] at h
      revert h
      cases hm : RE.searchGroup p text with
      | none => intro h; exact ih text v (by rw [firstValidatedMatch]; exact h)
      | some g =>
          by_cases hv : valid (pyStrip g) = true
          · simp only [hv, if_true]
            intro h
            cases h
            exact hv
          · simp only [eq_false_of_ne_true hv, if_false]
            intro h
            exact ih text v (by rw [firstValidatedMatch]; exact h)

/-- C8 (amended): the empty string can leak into `parse_raw_fields` output
(see the `vendor_phone` counterexample), but the `invoice_number` field never
can: for every input text, `_extract_invoice_number` returns either `None`
or a validated value that contains a digit — hence never the empty string. -/
theorem C8_invoice_number_never_empty (text v : String)
    (h : extract_invoice_number text = some v) :
    containsDigit v = true ∧ v ≠ "" := by
  have hd : containsDigit v = true := by
    unfold extract_invoice_number at h
    cases h1 : firstValidatedMatch invoicePatterns validInvoiceValue text with
    | some w =>
        rw [h1] at h
        injection h with h2
        subst h2
        have hv := firstValidatedMatch_passes_validation validInvoiceValue
          invoicePatterns text w h1
        unfold validInvoiceValue at hv
        exact ((Bool.and_eq_true _ _).mp ((Bool.and_eq_true _ _).mp hv).1).1
    | none =>
        rw [h1] at h
        exact firstValidatedMatch_passes_validation containsDigit
          invoiceFallbackPatterns text v h
  refine ⟨hd, ?_⟩
  intro he
  rw [he] at hd
  exact absurd hd (by decide)

/-- Witness for C8 (amended): `"Invoice Number: 72007"` extracts
`"72007"`, which contains a digit and is non-empty. -/
theorem C8_invoice_number_witness :
    extract_invoice_number "Invoice Number: 72007" = some "72007"
    ∧ (containsDigit "72007" = true ∧ "72007" ≠ "") :=
  ⟨by decide, C8_invoice_number_never_empty "Invoice Number: 72007" "72007" (by decide)⟩

end SyncLedger

namespace SyncLedger

open FieldParser MappingEngine

/-! ## C3 — confidence monotonicity -/

/-- C3 counterexample: adding one fully-populated line item can *decrease*
`_calculate_confidence`.  With total 100 and a single complete item of total
100 the score is 0.25 + 0.20 + 0.05 (totals-agreement bonus) = 0.50; adding
a second complete item of total 50 keeps 0.25 + 0.20 but the line-item sum
becomes 150 ≠ 100, the 0.05 bonus is lost, and the score drops to 0.45. -/
theorem C3_line_item_addition_decreases_confidence :
    calculate_confidence none none (some 100) none
        [{ line_number := 1, quantity := some 1, line_total := some 100 },
         { line_number := 2, quantity := some 1, line_total := some 50 }]
      < calculate_confidence none none (some 100) none
        [{ line_number := 1, quantity := some 1, line_total := some 100 }] := by
  with_unfolding_all decide

/-- C3 (amended): adding any one previously-missing *scalar* weighted field —
an invoice number, a date, a total, or a vendor name — while leaving
everything else fixed never decreases `_calculate_confidence`.  (Adding a
fully-populated line item can decrease it by breaking the 0.05
total-matches-sum bonus; see the counterexample.) -/
theorem C3_scalar_field_monotonicity :
    (∀ (v : String) (d : Option ℤ) (t : Option ℚ) (vn : Option String)
        (items : List LineItem),
        calculate_confidence none d t vn items
          ≤ calculate_confidence (some v) d t vn items)
    ∧ (∀ (inv : Option String) (dd : ℤ) (t : Option ℚ) (vn : Option String)
        (items : List LineItem),
        calculate_confidence inv none t vn items
          ≤ calculate_confidence inv (some dd) t vn items)
    ∧ (∀ (inv : Option String) (d : Option ℤ) (q : ℚ) (vn : Option String)
        (items : List LineItem),
        calculate_confidence inv d none vn items
          ≤ calculate_confidence inv d (some q) vn items)
    ∧ (∀ (inv : Option String) (d : Option ℤ) (t : Option ℚ) (v : String)
        (items : List LineItem),
        calculate_confidence inv d t none items
          ≤ calculate_confidence inv d t (some v) items) := by
  refine ⟨?_, ?_, ?_, ?_⟩ <;>
    · intros
      simp only [calculate_confidence]
      refine pyRound_mono 2 (min_le_min ?_ le_rfl)
      gcongr <;>
        · split_ifs
          all_goals simp_all [truthyStr, truthyDec]
          all_goals positivity

/-! ## C10 — a zero total falls back to the line-item sum -/

theorem truthyDec_none_eq : truthyDec none = false := rfl

theorem truthyDec_some_eq (q : ℚ) : truthyDec (some q) = decide (q ≠ 0) := rfl

theorem sumTruthy_eq_sum_filterMap (items : List LineItem) :
    sumTruthyLineTotals items = (items.filterMap LineItem.line_total).sum := by
  induction items with
  | nil => rfl
  | cons it rest ih =>
      simp only [sumTruthyLineTotals, List.map_cons, List.sum_cons,
        List.filterMap_cons] at ih ⊢
      cases hlt : it.line_total with
      | none => simp [hlt, truthyDec_none_eq, ih]
      | some q =>
          by_cases hq : q = 0
          · subst hq
            simp [hlt, truthyDec_some_eq, ih]
          · simp [hlt, truthyDec_some_eq, hq, ih]

/-- C10: a total extracted as exactly `Decimal("0")` is falsy in Python, so
both `FieldParser.parse` and `FieldParser.parse_with_line_items` replace it
(whenever at least one line item has a truthy `line_total`) with the sum of
the line items' line totals rather than returning 0. -/
theorem C10_zero_total_falls_back_to_line_sum (rf : RawParsed)
    (items : List LineItem) (htotal : rf.total = some 0)
    (hitem : ∃ it ∈ items, truthyDec it.line_total = true) :
    (parse rf items).total_amount = some ((items.filterMap LineItem.line_total).sum)
    ∧ (parse_with_line_items rf items).1.total
        = some ((items.filterMap LineItem.line_total).sum) := by
  have hne : items.isEmpty = false := by
    obtain ⟨it, hmem, _⟩ := hitem
    cases items with
    | nil => exact absurd hmem (List.not_mem_nil it)
    | cons a l => rfl
  have ht : truthyDec rf.total = false := by
    rw [htotal]
    rfl
  constructor
  · simp only [parse, ht, hne, Bool.not_false, Bool.and_self, if_true,
      sumTruthy_eq_sum_filterMap]
  · simp only [parse_with_line_items, ht, hne, Bool.not_false, Bool.and_self, if_true,
      sumTruthy_eq_sum_filterMap]

/-- Witness for C10 at a concrete input: raw total `Decimal("0")` and one
line item with line total 100 yield `total_amount = 100`. -/
theorem C10_witness :
    c10rf.total = some 0
    ∧ (∃ it ∈ c10items, truthyDec it.line_total = true)
    ∧ (parse c10rf c10items).total_amount
        = some ((c10items.filterMap LineItem.line_total).sum) := by
  refine ⟨rfl, ⟨c10items.head (by decide), ?_, ?_⟩, ?_⟩
  · exact List.head_mem _
  · with_unfolding_all decide
  · exact (C10_zero_total_falls_back_to_line_sum c10rf c10items rfl
      ⟨c10items.head (by decide), List.head_mem _, by with_unfolding_all decide⟩).1

end SyncLedger

namespace SyncLedger

open FieldParser MappingEngine CrossValidationService

/-! ## C5 — per-rule value resolution chain -/

/-- C5: `_resolve_value_traced` resolves every rule exactly as the chain
describes — primary source lookup, fallback source if null, the configured
date transform, and the literal default if still null
(`resolve_value_spec`) — and on the scenario rule (`due_date` from source
`due_date` with `next_friday` sourced from `order_date`, given
`order_date = 2024-03-06`, a Wednesday, and no raw `due_date`) the resolved
value is the date 2024-03-08, the following Friday. -/
theorem C5_resolution_chain :
    (∀ (pd : String → Option ℤ) (today : ℤ) (rule : FieldMappingRule)
        (raw : PyDict),
        (resolve_value_traced pd today rule raw).1
          = resolve_value_spec pd today rule raw)
    ∧ (resolve_value_traced (fun _ => none) 0 c5rule c5raw).1
        = some (PyVal.vDate (dateOrd 2024 3 8)) := by
  constructor
  · intro pd today rule raw
    simp only [resolve_value_traced, resolve_value_spec]
    generalize lookupField raw rule.source_field = v0
    generalize lookupField raw rule.fallback_source = fb
    have hV : (if v0.isNone then fb else v0) = Option.orElse v0 (fun _ => fb) := by
      cases v0 <;> rfl
    rw [hV]
    cases hdt : rule.date_transform with
    | none =>
        cases hdv : rule.default_value <;>
          cases hv1 : Option.orElse v0 (fun _ => fb) <;>
            simp [Option.orElse, hv1]
    | some t =>
        by_cases ht : t = DateTransform.none'
        · subst ht
          cases hdv : rule.default_value <;>
            cases hv1 : Option.orElse v0 (fun _ => fb) <;>
              simp [Option.orElse, hv1]
        · have hON : ∀ (f : Unit → Option PyVal), Option.orElse none f = f () :=
            fun _ => rfl
          have hOS : ∀ (a : PyVal) (f : Unit → Option PyVal),
              Option.orElse (some a) f = some a := fun _ _ => rfl
          cases hdv : rule.default_value <;>
            cases hv2 : apply_date_transform pd today
                (Option.orElse v0 (fun _ => fb)) t rule.date_transform_source raw <;>
              simp [ht, hv2, hON, hOS]
  · decide

/-! ## C1 — the requires_manual_review invariant -/

/-- C1 (amended): on the direct-parse path the invariant holds — whenever
the computed confidence is below 0.7, or the invoice number is absent, or
the total amount is absent, `FieldParser.parse` sets
`requires_manual_review`.  (`apply_mapping` does not re-derive the flag from
its own mapped fields; see the counterexample.) -/
theorem C1_parse_review_invariant (rf : RawParsed) (items : List LineItem)
    (h : (parse rf items).confidence_score < 7/10
      ∨ (parse rf items).invoice_number = none
      ∨ (parse rf items).total_amount = none) :
    (parse rf items).requires_manual_review = true := by
  have e : (parse rf items).requires_manual_review
      = (decide ((parse rf items).confidence_score < 7/10)
         || (parse rf items).invoice_number.isNone
         || (parse rf items).total_amount.isNone) := rfl
  rw [e]
  rcases h with h | h | h <;> simp [h]

/-- Witness for C1 (amended) at the empty extraction: the invoice number is
absent and the parse result is flagged for manual review. -/
theorem C1_parse_review_witness :
    (parse ({} : RawParsed) []).invoice_number = none
    ∧ (parse ({} : RawParsed) []).requires_manual_review = true :=
  ⟨rfl, C1_parse_review_invariant {} [] (Or.inr (Or.inl rfl))⟩

/-- C1 counterexample on the mapping path: with an empty-rules profile and
raw fields carrying `confidence_score = 0.8` and
`requires_manual_review = False`, `apply_mapping` succeeds with an invoice
whose invoice number and total amount are both absent yet whose review flag
is `False` — `_build_invoice_data` copies the flag from `raw_fields` instead
of re-deriving the invariant from the mapped fields. -/
theorem C1_mapping_review_counterexample :
    (c1res.toOption.map (fun r =>
        decide (r.invoice_data.invoice_number = none)
        && decide (r.invoice_data.total_amount = none)
        && decide ((7 : ℚ)/10 ≤ r.invoice_data.confidence_score)
        && decide (r.invoice_data.requires_manual_review = false))) = some true := by
  with_unfolding_all decide

end SyncLedger

namespace SyncLedger

open MappingEngine CrossValidationService

/-! ## C4 — profile selection priority -/

/-- C4 counterexample: a profile with vendor pattern `(?i)MGD|Master
Gutters` and no organization id is registered on top of the built-in
registry; its pattern matches `"MGD Construction Services"`, yet
`select_profile` returns the built-in `default-subcontractor` profile —
whose own vendor pattern also matches MGD and which sits earlier in the
registry — and not the newly registered profile. -/
theorem C4_registered_profile_shadowed :
    vendorSearch mgdCustomProfile "MGD Construction Services" = true
    ∧ (select_profile registryWithMgd (some "MGD Construction Services")
        none none).id = some "default-subcontractor"
    ∧ (select_profile registryWithMgd (some "MGD Construction Services")
        none none).id ≠ mgdCustomProfile.id := by
  refine ⟨by decide, by decide, by decide⟩

/-- C4 (amended): an explicit registered profile id always wins; with no
explicit id and no organization, the *first registered* profile (in
registration order) whose vendor pattern matches is returned, outranking
every default — in a registry where a plain default precedes the only
pattern-bearing profile, the pattern match is still selected.  Since the
built-in subcontractor default itself carries an MGD vendor pattern and is
registered first, it shadows any later-registered MGD profile. -/
theorem C4_selection_priority :
    (∀ (registry : List InvoiceMappingProfile) (vn : Option String)
        (pid : Option String) (org : Option ℤ) (p : InvoiceMappingProfile),
        truthyStr pid = true →
        registry.find? (fun q => q.id == pid) = some p →
        select_profile registry vn pid org = p)
    ∧ (∀ (registry : List InvoiceMappingProfile) (vn : String)
        (p : InvoiceMappingProfile),
        vn ≠ "" →
        registry.find? (fun q =>
          q.vendor_pattern.isSome && q.organization_id == none
            && vendorSearch q vn) = some p →
        select_profile registry (some vn) none none = p)
    ∧ (select_profile [plainDefaultProfile, mgdCustomProfile]
        (some "MGD Construction Services") none none).id = some "mgd-custom" := by
  refine ⟨?_, ?_, by decide⟩
  · intro registry vn pid org p h1 h2
    simp [select_profile, h1, h2, Option.orElse]
  · intro registry vn p hvn h2
    simp [select_profile, truthyStr, hvn, h2, Option.orElse]

/-- Witness for C4 (amended): the explicit id `standard-invoice` selects the
standard profile out of the built-in registry. -/
theorem C4_priority_witness :
    truthyStr (some "standard-invoice") = true
    ∧ select_profile builtinRegistry none (some "standard-invoice") none
        = get_standard_invoice_profile :=
  ⟨by decide, C4_selection_priority.1 builtinRegistry none
      (some "standard-invoice") none get_standard_invoice_profile (by decide) rfl⟩

/-! ## C7 — final cross-validation confidence -/

/-- C7 counterexample: oracle subtotal 100 with self-reported confidence 0.8
against extractor subtotal 200 — the only mismatch is on `subtotal`, which
is not a critical field, so the claimed `+0.05` bonus for zero
critical-field mismatches would give 0.53; the code's bonus requires zero
mismatches among *all* compared fields, and the final confidence is 0.48. -/
theorem C7_critical_bonus_counterexample :
    (c7res.field_validations.filter (fun fv =>
        !fv.isMatch && CRITICAL_FIELDS.any (fun p => p.1 == fv.field_name))).length = 0
    ∧ c7res.mismatched_fields = 1
    ∧ c7res.final_confidence = 48/100
    ∧ (48 : ℚ)/100 ≠ 53/100 := by
  refine ⟨by with_unfolding_all decide, by with_unfolding_all decide, ?_, by norm_num⟩
  have h1 : c7res.final_confidence.num = 12 := by with_unfolding_all decide
  have h2 : c7res.final_confidence.den = 25 := by with_unfolding_all decide
  have h0 := (Rat.num_div_den c7res.final_confidence).symm
  rw [h1, h2] at h0
  rw [h0]
  norm_num

/-- C7 (amended): with at least one compared field,
`_calculate_final_confidence` returns `0.6·ai + 0.4·validation_score`, plus
0.05 exactly when *no compared field of any tier mismatched and at least one
comparison matched*, plus `min(0.02·ai_only, 0.06)` when the oracle found
fields the extractor missed, clamped to [0, 1]; `validate` then rounds the
result to three digits.  (With no compared fields the oracle confidence is
returned unchanged.) -/
theorem C7_final_confidence_formula (a v : ℚ) (m mm ao tc : Nat)
    (h : 0 < tc) :
    calculate_final_confidence a v m mm ao tc
      = max 0 (min 1 (a * (6/10) + v * (4/10)
          + (if mm = 0 ∧ 0 < m then 5/100 else 0)
          + (if 0 < ao then min ((ao : ℚ) * (2/100)) (6/100) else 0))) := by
  have htc : (tc == 0) = false := beq_eq_false_iff_ne.mpr (Nat.pos_iff_ne_zero.mp h)
  simp only [calculate_final_confidence, htc, Bool.false_eq_true, if_false]
  split_ifs <;>
    simp_all [Bool.and_eq_true, beq_iff_eq, decide_eq_true_eq]

/-- Witness for C7 (amended) at one compared field with one mismatch and
oracle confidence 0.8. -/
theorem C7_formula_witness :
    0 < 1
    ∧ calculate_final_confidence (8/10) 0 10 1 0 1
      = max 0 (min 1 ((8 : ℚ)/10 * (6/10) + 0 * (4/10)
          + (if (1 : Nat) = 0 ∧ 0 < (10 : Nat) then 5/100 else 0)
          + (if 0 < (0 : Nat) then min (((0 : Nat) : ℚ) * (2/100)) (6/100) else 0))) :=
  ⟨by decide, C7_final_confidence_formula (8/10) 0 10 1 0 1 (by decide)⟩

/-! ## C9 — the GL-account backfill -/

/-- C9: the GL backfill loop of `apply_mapping` crashes instead of
backfilling — the pydantic model `models.invoice_data.LineItem` declares no
`gl_account_code` field (only the ORM model `db_models.InvoiceLineItem`
has that column), so as soon as a GL account is resolved (the built-in
subcontractor profile defaults it to `"5100"`) and at least one line item
exists, attribute access in `if not item.gl_account_code` raises
`AttributeError`. -/
theorem C9_gl_backfill_attribute_error :
    apply_mapping builtinRegistry (fun _ => none) 0 [] c9items none none none
      = Except.error
          "AttributeError: LineItem object has no attribute gl_account_code" := by
  rfl

end SyncLedger
